import Mathlib

/-!
Verification of the calculation layer of a small HTTP calculator service
(`calc.py`): arithmetic operator dispatch (`perform_calculation`), loan
amortization (`calculate_loan`), expression sampling for graphing, and the
request dispatcher (`calculate`).

Modelling conventions:
* Python floats are modelled as exact rationals (ℚ).  Where a float
  operation produces a value that is not rational in this model
  (a fractional power) the value is tracked symbolically: `PyNum.posReal a b`
  stands for the nonnegative real float value `a ** b`, and `PyNum.cplx a b`
  for the complex value Python returns when a negative base is raised to a
  non-integer power.  Floating-point rounding and overflow are outside the
  model.
* Python `round(x, 2)` is modelled as exact round-half-to-even at two
  decimal places (`round2`).
* JSON field values are numbers or strings (`Json`); absent fields are
  `Option.none`.  `float(...)` coercion is `pyFloat`, with a decimal-literal
  reader for strings.
* `Resp.crash` marks an exception that escapes the request handler (the
  framework answers HTTP 500); `Resp.modelGap` marks a response whose body
  contains a value the rational model tracks only symbolically, so no
  status is asserted for it.
-/

/-- Round-half-to-even of a rational to an integer (the semantics of Python
`round` on exact values). -/
def roundHalfEven (q : ℚ) : ℤ :=
  let f := ⌊q⌋
  let r := q - (f : ℚ)
  if r < 1/2 then f
  else if 1/2 < r then f + 1
  else if f % 2 = 0 then f else f + 1

/-- Python `round(x, 2)`: round to two decimal places, half to even. -/
def round2 (q : ℚ) : ℚ := (roundHalfEven (q * 100) : ℚ) / 100

/-- Outcome of the Python float power operator `a ** b`. -/
inductive PowOut where
  /-- The result is the rational `q` (integer exponent). -/
  | val (q : ℚ)
  /-- The result is the nonnegative real `a ** b`, tracked symbolically
  (nonnegative base, non-integer exponent). -/
  | posReal (a b : ℚ)
  /-- The result is the non-real complex number `a ** b` that Python returns
  for a negative base and a non-integer exponent. -/
  | cplx (a b : ℚ)
  /-- Python raises `ZeroDivisionError`: zero base, negative exponent. -/
  | zeroDiv
deriving DecidableEq

/-- Model of the Python float power operator `a ** b`. -/
def pypow (a b : ℚ) : PowOut :=
  if a = 0 ∧ b < 0 then .zeroDiv
  else if b.den = 1 then .val (a ^ b.num)
  else if 0 ≤ a then .posReal a b
  else .cplx a b

/-- A numeric value produced by the calculator: a rational, or a float /
complex value tracked symbolically (see `PowOut`). -/
inductive PyNum where
  | rat (q : ℚ)
  | posReal (a b : ℚ)
  | cplx (a b : ℚ)
deriving DecidableEq

/-- Result of `perform_calculation`: a numeric value or a Python error
string. -/
inductive CalcOut where
  | num (v : PyNum)
  | err (msg : String)
deriving DecidableEq

/-- A JSON scalar appearing in a request body: a number or a string. -/
inductive Json where
  | num (q : ℚ)
  | str (s : String)
deriving DecidableEq

/-- The outcome of returning a `**` computation from `perform_calculation`:
a numeric success value; the `ZeroDivisionError` Python raises for
`0.0 ** negative` is caught by the surrounding `except` (calc.py line 84)
and reported as the unexpected-error message. -/
def powToCalc : PowOut → CalcOut
  | .val q => .num (.rat q)
  | .posReal a b => .num (.posReal a b)
  | .cplx a b => .num (.cplx a b)
  | .zeroDiv => .err "Error: An unexpected error occurred during calculation: 0.0 cannot be raised to a negative power"

/-- Embedding of `perform_calculation(num1, num2, operator, mode)`
(calc.py lines 50-85).  The `operator` is the raw JSON value (Python
compares it with `==` against string literals); `mode` is passed but never
used, exactly as in the source. -/
def perform_calculation (num1 num2 : ℚ) (operator : Json) (mode : Option Json) :
    CalcOut :=
  if operator = Json.str "+" then .num (.rat (num1 + num2))
  else if operator = Json.str "-" then .num (.rat (num1 - num2))
  else if operator = Json.str "*" then .num (.rat (num1 * num2))
  else if operator = Json.str "/" then
    if num2 = 0 then .err "Error: Division by zero is not allowed."
    else .num (.rat (num1 / num2))
  else if operator = Json.str "^" then powToCalc (pypow num1 num2)
  else if operator = Json.str "root" then
    if num2 = 0 then .err "Error: Cannot take 0th root."
    else if num2 < 0 then .err "Error: Cannot take root of negative number."
    else powToCalc (pypow num1 (1 / num2))
  else .err "Error: Invalid operator. Please use +, -, *, /, ^, or root."

/-- Result of `calculate_loan`: the rounded payment pair, a Python error
string, or a value outside the rational model (non-integer number of
payments, so `(1+i) ** n` is irrational). -/
inductive LoanOut where
  | ok (monthly_payment total_repayment : ℚ)
  | err (msg : String)
  | modelGap
deriving DecidableEq

/-- The positive-rate arm of `calculate_loan` once `(1+i) ** n` has been
computed (calc.py lines 37-47): zero-denominator check, payment formula,
and rounding; a symbolic power value is outside the rational model. -/
def amortizeFromPow (loan_amount monthly_interest_rate total_payments : ℚ) :
    PowOut → LoanOut
  | .val pw =>
    let numer := monthly_interest_rate * pw
    let denom := pw - 1
    if denom = 0 then .err "Error: Cannot calculate payment with zero denominator."
    else
      let monthly_payment := loan_amount * (numer / denom)
      let total_repayment := monthly_payment * total_payments
      .ok (round2 monthly_payment) (round2 total_repayment)
  | _ => .modelGap

/-- Embedding of `calculate_loan(loan_amount, annual_interest_rate,
loan_term_years)` (calc.py lines 10-49). -/
def calculate_loan (loan_amount annual_interest_rate loan_term_years : ℚ) :
    LoanOut :=
  if loan_amount < 0 ∨ annual_interest_rate < 0 ∨ loan_term_years ≤ 0 then
    .err "Error: Loan amount, interest rate, and term must be positive numbers."
  else
    let monthly_interest_rate := annual_interest_rate / 100 / 12
    let total_payments := loan_term_years * 12
    if monthly_interest_rate = 0 then
      let monthly_payment := loan_amount / total_payments
      let total_repayment := monthly_payment * total_payments
      .ok (round2 monthly_payment) (round2 total_repayment)
    else
      amortizeFromPow loan_amount monthly_interest_rate total_payments
        (pypow (1 + monthly_interest_rate) total_payments)

/-- Numeric value of a list of decimal digit characters. -/
def digitsVal (cs : List Char) : ℕ :=
  cs.foldl (fun acc c => acc * 10 + (c.toNat - 48)) 0

/-- Exponent suffix of a decimal literal: optional sign then digits. -/
def expSuffix (base : ℚ) (cs : List Char) : Option ℚ :=
  let sgn : ℤ × List Char :=
    match cs with
    | '+' :: t => (1, t)
    | '-' :: t => (-1, t)
    | _ => (1, cs)
  let ds := sgn.2.takeWhile Char.isDigit
  let rest := sgn.2.dropWhile Char.isDigit
  if ds.isEmpty ∨ ¬ rest.isEmpty then none
  else some (base * (10 : ℚ) ^ (sgn.1 * (digitsVal ds : ℤ)))

/-- Unsigned decimal literal: digits, optional fraction, optional
exponent. -/
def decimalVal (cs : List Char) : Option ℚ :=
  let ip := cs.takeWhile Char.isDigit
  let r1 := cs.dropWhile Char.isDigit
  let frac : List Char × List Char :=
    match r1 with
    | '.' :: t => (t.takeWhile Char.isDigit, t.dropWhile Char.isDigit)
    | _ => ([], r1)
  let fp := frac.1
  let r2 := frac.2
  if ip.isEmpty ∧ fp.isEmpty then none
  else
    let base : ℚ := (digitsVal ip : ℚ) + (digitsVal fp : ℚ) / (10 : ℚ) ^ fp.length
    match r2 with
    | [] => some base
    | 'e' :: t => expSuffix base t
    | 'E' :: t => expSuffix base t
    | _ => none

/-- Model of Python `float(s)` on a string: optional surrounding spaces,
optional sign, decimal literal with optional fraction and exponent.
(The special literals `inf` and `nan` are outside the model.) -/
def pyFloatOfString (s : String) : Option ℚ :=
  let cs := ((s.data.dropWhile (fun c => c = ' ')).reverse.dropWhile
    (fun c => c = ' ')).reverse
  match cs with
  | '+' :: t => decimalVal t
  | '-' :: t => (decimalVal t).map Neg.neg
  | _ => decimalVal cs

/-- Model of Python `float(v)` on a JSON value: numbers pass through,
strings are read as decimal literals, anything unreadable raises
`ValueError` (`none`). -/
def pyFloat : Json → Option ℚ
  | .num q => some q
  | .str s => pyFloatOfString s

/-- Python truthiness of a JSON scalar (`if not expression`). -/
def jsonFalsy : Json → Bool
  | .num q => q = 0
  | .str s => s = ""

/-- Model of Python `s.startswith(pre)` (the dispatcher's
`result.startswith("Error")` test), as a character-list comparison. -/
def pyStartsWith (s pre : String) : Bool :=
  pre.data.isPrefixOf s.data

/-- Tokens of the graphing expression language. -/
inductive Tok where
  | num (q : ℚ)
  | ident (s : String)
  | plus
  | minus
  | star
  | slash
  | dstar
  | lparen
  | rparen
deriving DecidableEq

/-- Fuel-indexed tokenizer for arithmetic expressions: decimal numbers,
identifiers, `+ - * / **`, parentheses, spaces.  `none` is a syntax
error. -/
def tokenize : ℕ → List Char → Option (List Tok)
  | 0, _ => none
  | _, [] => some []
  | f + 1, ' ' :: cs => tokenize f cs
  | f + 1, '+' :: cs => (tokenize f cs).map (Tok.plus :: ·)
  | f + 1, '-' :: cs => (tokenize f cs).map (Tok.minus :: ·)
  | f + 1, '*' :: '*' :: cs => (tokenize f cs).map (Tok.dstar :: ·)
  | f + 1, '*' :: cs => (tokenize f cs).map (Tok.star :: ·)
  | f + 1, '/' :: cs => (tokenize f cs).map (Tok.slash :: ·)
  | f + 1, '(' :: cs => (tokenize f cs).map (Tok.lparen :: ·)
  | f + 1, ')' :: cs => (tokenize f cs).map (Tok.rparen :: ·)
  | f + 1, c :: cs =>
    if c.isDigit ∨ c = '.' then
      let ip := (c :: cs).takeWhile Char.isDigit
      let r1 := (c :: cs).dropWhile Char.isDigit
      let frac : List Char × List Char :=
        match r1 with
        | '.' :: t => (t.takeWhile Char.isDigit, t.dropWhile Char.isDigit)
        | _ => ([], r1)
      if ip.isEmpty ∧ frac.1.isEmpty then none
      else
        let v : ℚ := (digitsVal ip : ℚ) + (digitsVal frac.1 : ℚ) / (10 : ℚ) ^ frac.1.length
        (tokenize f frac.2).map (Tok.num v :: ·)
    else if c.isAlpha then
      let nm := (c :: cs).takeWhile Char.isAlpha
      (tokenize f ((c :: cs).dropWhile Char.isAlpha)).map
        (Tok.ident (String.mk nm) :: ·)
    else none

/-- Abstract syntax of the graphing expression language. -/
inductive PExpr where
  | num (q : ℚ)
  | var (s : String)
  | neg (e : PExpr)
  | add (a b : PExpr)
  | sub (a b : PExpr)
  | mul (a b : PExpr)
  | div (a b : PExpr)
  | pow (a b : PExpr)
deriving DecidableEq

mutual

/-- Additive level: `term (('+'|'-') term)*`. -/
def parseAddSub : ℕ → List Tok → Option (PExpr × List Tok)
  | 0, _ => none
  | f + 1, ts =>
    match parseMulDiv f ts with
    | none => none
    | some (e, r) => parseAddSubRest f e r

/-- Left-associative tail of the additive level. -/
def parseAddSubRest : ℕ → PExpr → List Tok → Option (PExpr × List Tok)
  | 0, _, _ => none
  | f + 1, acc, Tok.plus :: r =>
    match parseMulDiv f r with
    | some (e, r2) => parseAddSubRest f (.add acc e) r2
    | none => none
  | f + 1, acc, Tok.minus :: r =>
    match parseMulDiv f r with
    | some (e, r2) => parseAddSubRest f (.sub acc e) r2
    | none => none
  | _ + 1, acc, ts => some (acc, ts)

/-- Multiplicative level: `unary (('*'|'/') unary)*`. -/
def parseMulDiv : ℕ → List Tok → Option (PExpr × List Tok)
  | 0, _ => none
  | f + 1, ts =>
    match parseUnary f ts with
    | none => none
    | some (e, r) => parseMulDivRest f e r

/-- Left-associative tail of the multiplicative level. -/
def parseMulDivRest : ℕ → PExpr → List Tok → Option (PExpr × List Tok)
  | 0, _, _ => none
  | f + 1, acc, Tok.star :: r =>
    match parseUnary f r with
    | some (e, r2) => parseMulDivRest f (.mul acc e) r2
    | none => none
  | f + 1, acc, Tok.slash :: r =>
    match parseUnary f r with
    | some (e, r2) => parseMulDivRest f (.div acc e) r2
    | none => none
  | _ + 1, acc, ts => some (acc, ts)

/-- Unary level: `('-')* power` (as in Python, unary minus binds looser
than `**` on the left). -/
def parseUnary : ℕ → List Tok → Option (PExpr × List Tok)
  | 0, _ => none
  | f + 1, Tok.minus :: r =>
    match parseUnary f r with
    | some (e, r2) => some (.neg e, r2)
    | none => none
  | f + 1, ts => parsePow f ts

/-- Power level: `atom ('**' unary)?`, right-associative as in Python. -/
def parsePow : ℕ → List Tok → Option (PExpr × List Tok)
  | 0, _ => none
  | f + 1, ts =>
    match parseAtom f ts with
    | some (e, Tok.dstar :: r) =>
      match parseUnary f r with
      | some (b, r2) => some (.pow e b, r2)
      | none => none
    | other => other

/-- Atoms: numbers, identifiers, parenthesized expressions. -/
def parseAtom : ℕ → List Tok → Option (PExpr × List Tok)
  | 0, _ => none
  | _ + 1, Tok.num q :: r => some (.num q, r)
  | _ + 1, Tok.ident s :: r => some (.var s, r)
  | f + 1, Tok.lparen :: r =>
    match parseAddSub f r with
    | some (e, Tok.rparen :: r2) => some (e, r2)
    | _ => none
  | _ + 1, _ => none

end

/-- Outcome of evaluating an expression at one sample point: an exact
rational, a Python exception (message), or a float/complex value the
rational model tracks only symbolically. -/
inductive EvalOut where
  | val (q : ℚ)
  | exn (msg : String)
  | gap
deriving DecidableEq

/-- Lift a total binary rational operation over evaluation outcomes
(left operand's exception first, as Python evaluates left to right). -/
def liftBin (f : ℚ → ℚ → ℚ) : EvalOut → EvalOut → EvalOut
  | .exn m, _ => .exn m
  | _, .exn m => .exn m
  | .val a, .val b => .val (f a b)
  | _, _ => .gap

/-- Division with Python `ZeroDivisionError` on a zero denominator. -/
def divOut : EvalOut → EvalOut → EvalOut
  | .exn m, _ => .exn m
  | _, .exn m => .exn m
  | _, .val 0 => .exn "float division by zero"
  | .val a, .val b => .val (a / b)
  | _, _ => .gap

/-- Power via `pypow`, with Python `ZeroDivisionError` for a zero base and
negative exponent. -/
def powOut : EvalOut → EvalOut → EvalOut
  | .exn m, _ => .exn m
  | _, .exn m => .exn m
  | .val a, .val b =>
    match pypow a b with
    | .val q => .val q
    | .zeroDiv => .exn "0.0 cannot be raised to a negative power"
    | _ => .gap
  | _, _ => .gap

/-- Tree-walk evaluation of a parsed expression with `x` bound.  Any other
name raises `NameError` (the model omits the allow-listed math functions
`sin cos tan exp log sqrt`, which no verified claim exercises). -/
def evalP : PExpr → ℚ → EvalOut
  | .num q, _ => .val q
  | .var s, x => if s = "x" then .val x else .exn ("name " ++ s ++ " is not defined")
  | .neg e, x =>
    match evalP e x with
    | .val q => .val (-q)
    | .exn m => .exn m
    | .gap => .gap
  | .add a b, x => liftBin (fun p q => p + q) (evalP a x) (evalP b x)
  | .sub a b, x => liftBin (fun p q => p - q) (evalP a x) (evalP b x)
  | .mul a b, x => liftBin (fun p q => p * q) (evalP a x) (evalP b x)
  | .div a b, x => divOut (evalP a x) (evalP b x)
  | .pow a b, x => powOut (evalP a x) (evalP b x)

/-- Model of `eval(s, restricted namespace)` with `x` bound to a rational:
tokenize, parse, and evaluate; leftover input or a lexing failure is a
`SyntaxError`. -/
def pyEval (s : String) (x : ℚ) : EvalOut :=
  match tokenize (s.data.length + 1) s.data with
  | none => .exn "invalid syntax"
  | some ts =>
    match parseAddSub ((ts.length + 1) * 8) ts with
    | some (e, []) => evalP e x
    | _ => .exn "invalid syntax"

/-- Rewrite of every caret character to `**`: the specialization of Python
`s.replace("^", "**")` to the single-character pattern `^`. -/
def caretRewrite : List Char → List Char
  | [] => []
  | c :: cs => if c = '^' then '*' :: '*' :: caretRewrite cs else c :: caretRewrite cs

/-- `expression.replace("^", "**")` as a string transformation. -/
def pyReplaceCaret (s : String) : String :=
  String.mk (caretRewrite s.data)

/-- Evaluation of one sample point (calc.py line 165): the caret in the
expression text is rewritten to `**` before evaluation. -/
def samplePoint (expr : String) (x : ℚ) : EvalOut :=
  pyEval (pyReplaceCaret expr) x

/-- Embedding of `np.linspace(start, stop, num)` with `endpoint=True`,
in exact arithmetic. -/
def linspace (start stop : ℚ) (num : ℕ) : List ℚ :=
  if num = 0 then []
  else if num = 1 then [start]
  else (List.range num).map
    (fun i : ℕ => start + (i : ℚ) * ((stop - start) / ((num : ℚ) - 1)))

/-- Outcome of sampling the whole grid: all y values, the first exception
raised (aborting the whole sample), or a point outside the rational
model. -/
inductive EvalsOut where
  | ok (ys : List ℚ)
  | exn (msg : String)
  | gap
deriving DecidableEq

/-- Collect per-point outcomes in order: the earliest exception aborts the
sample; otherwise a symbolic point makes the y series symbolic. -/
def collectYs : List EvalOut → EvalsOut
  | [] => .ok []
  | .exn m :: _ => .exn m
  | .val q :: rest =>
    match collectYs rest with
    | .ok ys => .ok (q :: ys)
    | e => e
  | .gap :: rest =>
    match collectYs rest with
    | .exn m => .exn m
    | _ => .gap

/-- The expression sampler (calc.py lines 162-171, with the point count a
parameter bound to 400 by the dispatcher): the sampling grid together with
the y series obtained by evaluating the caret-rewritten expression at each
grid point. -/
def sampleExpr (expr : String) (a b : ℚ) (n : ℕ) : List ℚ × EvalsOut :=
  let xs := linspace a b n
  (xs, collectYs (xs.map (samplePoint expr)))

/-- A parsed JSON request body: each field of interest, absent or a JSON
scalar (`data.get(...)` semantics). -/
structure Req where
  mode : Option Json
  num1 : Option Json
  num2 : Option Json
  operator : Option Json
  loan_amount : Option Json
  annual_interest_rate : Option Json
  loan_term_years : Option Json
  expression : Option Json
  xmin : Option Json
  xmax : Option Json
deriving DecidableEq

/-- The request with every field absent. -/
def emptyReq : Req :=
  ⟨none, none, none, none, none, none, none, none, none, none⟩

/-- A basic/currency-mode request carrying the three arithmetic fields. -/
def bcReq (md n1 n2 op : Json) : Req :=
  { emptyReq with
      mode := some md
      num1 := some n1
      num2 := some n2
      operator := some op }

/-- A loan-mode request carrying the three loan fields. -/
def loanReq (la air lty : Json) : Req :=
  { emptyReq with
      mode := some (Json.str "loan")
      loan_amount := some la
      annual_interest_rate := some air
      loan_term_years := some lty }

/-- A graph-mode request: expression and optional bounds. -/
def graphReq (e xm xM : Option Json) : Req :=
  { emptyReq with
      mode := some (Json.str "graph")
      expression := e
      xmin := xm
      xmax := xM }

/-- A JSON response body. -/
inductive Body where
  /-- `jsonify({'error': msg})`. -/
  | error (msg : String)
  /-- `jsonify({'result': v})`. -/
  | result (v : PyNum)
  /-- `jsonify({'monthly_payment': mp, 'total_repayment': tr})`. -/
  | loan (monthly_payment total_repayment : ℚ)
deriving DecidableEq

/-- The HTTP response produced by the `/calculate` view. -/
inductive Resp where
  /-- A JSON body with the given status code. -/
  | json (status : ℕ) (body : Body)
  /-- `send_file` of the rendered plot of the sampled series (the PNG
  encoding itself is the rendering collaborator, outside the model). -/
  | png (xs ys : List ℚ)
  /-- An exception escaped the view; the framework answers HTTP 500. -/
  | crash (msg : String)
  /-- The response body contains a value the rational model tracks only
  symbolically; no status is asserted. -/
  | modelGap
deriving DecidableEq

/-- `jsonify({'result': v})`: a complex value is not JSON serializable, so
Python raises `TypeError` out of the view. -/
def jsonifyResult : PyNum → Resp
  | .cplx _ _ => .crash "TypeError: Object of type complex is not JSON serializable"
  | .rat q => .json 200 (.result (.rat q))
  | .posReal a b => .json 200 (.result (.posReal a b))

/-- Serialization of a `perform_calculation` outcome (calc.py lines
147-150): an error string answers 400 with the message; a value is
jsonified with status 200. -/
def dispatchCalc : CalcOut → Resp
  | .err m => .json 400 (.error m)
  | .num v => jsonifyResult v

/-- Serialization of a `calculate_loan` outcome (calc.py lines 124-127):
an error string answers 400 with the message; the payment pair is
jsonified with status 200. -/
def dispatchLoan : LoanOut → Resp
  | .err m => .json 400 (.error m)
  | .ok mp tr => .json 200 (.loan mp tr)
  | .modelGap => .modelGap

/-- The graph branch after the bounds are known numeric (calc.py lines
159-190): falsy expression already filtered; a numeric expression value has
no `.replace`, so the `AttributeError` is caught by the surrounding
`except` and reported; a string is sampled over 400 points. -/
def graphEval (e : Json) (a b : ℚ) : Resp :=
  match e with
  | .num _ => .json 400
      (.error "Error evaluating expression: 'float' object has no attribute 'replace'")
  | .str s =>
    match sampleExpr s a b 400 with
    | (xs, .ok ys) => .png xs ys
    | (_, .exn m) => .json 400 (.error ("Error evaluating expression: " ++ m))
    | (_, .gap) => .modelGap

/-- Embedding of the `/calculate` view (calc.py lines 98-193): mode
dispatch, missing-field checks, `float` coercions, evaluator invocation and
serialization.  In graph mode `xmin`/`xmax` default to -10/10 and are
passed to `np.linspace` without validation: a string bound raises an
unhandled `TypeError` (the call sits outside the `try` block). -/
def calculate (data : Req) : Resp :=
  if data.mode = some (Json.str "loan") then
    match data.loan_amount, data.annual_interest_rate, data.loan_term_years with
    | some la, some air, some lty =>
      (match pyFloat la, pyFloat air, pyFloat lty with
       | some a, some r, some y => dispatchLoan (calculate_loan a r y)
       | _, _, _ => .json 400 (.error "Invalid input: Loan parameters must be numbers."))
    | _, _, _ => .json 400 (.error "Missing loan calculation arguments.")
  else if data.mode = some (Json.str "basic") ∨ data.mode = some (Json.str "currency") then
    match data.num1, data.num2, data.operator with
    | some n1, some n2, some op =>
      (match pyFloat n1, pyFloat n2 with
       | some a, some b => dispatchCalc (perform_calculation a b op data.mode)
       | _, _ => .json 400 (.error "Invalid input: num1 and num2 must be numbers"))
    | _, _, _ => .json 400 (.error "Missing basic/currency arguments (num1, num2, operator)")
  else if data.mode = some (Json.str "graph") then
    match data.expression with
    | none => .json 400 (.error "Missing expression for graphing.")
    | some e =>
      if jsonFalsy e then .json 400 (.error "Missing expression for graphing.")
      else
        match data.xmin.getD (Json.num (-10)), data.xmax.getD (Json.num 10) with
        | Json.num a, Json.num b => graphEval e a b
        | _, _ => .crash "TypeError: unsupported operand type in np.linspace"
  else .json 400 (.error "Invalid mode specified")

/-- The code point of the digit character `2` (used to evaluate the
tokenizer on concrete expressions). -/
theorem char_two_code : '2'.toNat = 50 := by decide

/-- C1.  The claim asserts that currency mode with operator `convert`
returns `num2 * num1` and fails with `InvalidRate` when `num1 = 0`.  The
code contains no `convert` branch at all: for every pair of numeric inputs
and every mode value, operator `convert` falls through to the
invalid-operator error. -/
theorem C1_convert_unimplemented :
    ∀ (a b : ℚ) (m : Option Json),
      perform_calculation a b (Json.str "convert") m =
        CalcOut.err "Error: Invalid operator. Please use +, -, *, /, ^, or root." := by
  intro a b m
  norm_num +decide [perform_calculation]

/-- C1 counterexample.  A currency-mode request with `num1 = 2`, `num2 = 3`,
operator `convert` is answered 400 with the invalid-operator error, not 200
with `num2 * num1 = 6`; and with `num1 = 0` the response is the same
invalid-operator error, not an `InvalidRate` error. -/
theorem C1_convert_counterexample :
    calculate (bcReq (.str "currency") (.num 2) (.num 3) (.str "convert")) =
      Resp.json 400 (.error "Error: Invalid operator. Please use +, -, *, /, ^, or root.")
    ∧ calculate (bcReq (.str "currency") (.num 0) (.num 3) (.str "convert")) =
      Resp.json 400 (.error "Error: Invalid operator. Please use +, -, *, /, ^, or root.") := by
  constructor <;>
    norm_num +decide [calculate, bcReq, emptyReq, pyFloat, perform_calculation,
      dispatchCalc, jsonifyResult]

/-- C2.  The claim (and the spec) say the `root` operator rejects every
negative base `num1` with a `DomainError` and otherwise returns
`num1 ** (1/num2)`.  The code's guard instead tests `num2 < 0` — despite
its message "Cannot take root of negative number" — so the negative base
`-8` with `num2 = 3` is accepted and the code computes the complex value
`(-8) ** (1/3)` (Python returns a complex number, not an error string),
while the negative root degree `num2 = -2` with the positive base `4` is
rejected with the negative-number message instead of returning
`4 ** (1/(-2))`. -/
theorem C2_root_guard_behavior :
    perform_calculation (-8) 3 (Json.str "root") (some (Json.str "basic")) =
      CalcOut.num (PyNum.cplx (-8) (1/3))
    ∧ perform_calculation 4 (-2) (Json.str "root") (some (Json.str "basic")) =
      CalcOut.err "Error: Cannot take root of negative number." := by
  constructor <;> norm_num +decide [perform_calculation, powToCalc, pypow]

/-- C3 counterexample.  The claim asserts the nine operators
`+ - * / % ^ sqrt log root` all dispatch to a computation.  The operators
`%`, `sqrt` and `log` are rejected with the invalid-operator error. -/
theorem C3_nine_operators_counterexample :
    perform_calculation 10 3 (Json.str "%") (some (Json.str "basic")) =
      CalcOut.err "Error: Invalid operator. Please use +, -, *, /, ^, or root."
    ∧ perform_calculation 9 2 (Json.str "sqrt") (some (Json.str "basic")) =
      CalcOut.err "Error: Invalid operator. Please use +, -, *, /, ^, or root."
    ∧ perform_calculation 8 2 (Json.str "log") (some (Json.str "basic")) =
      CalcOut.err "Error: Invalid operator. Please use +, -, *, /, ^, or root." := by
  refine ⟨?_, ?_, ?_⟩ <;> norm_num +decide [perform_calculation]

/-- C3 amended.  The arithmetic evaluator accepts exactly the six operators
`+ - * / ^ root`: an operator value yields the invalid-operator error
precisely when it is none of those six strings (so `%`, `sqrt` and `log`
are rejected like any other unknown operator). -/
theorem C3_operator_set_amended :
    ∀ (a b : ℚ) (op : Json) (m : Option Json),
      perform_calculation a b op m =
          CalcOut.err "Error: Invalid operator. Please use +, -, *, /, ^, or root." ↔
        op ∉ [Json.str "+", Json.str "-", Json.str "*", Json.str "/",
          Json.str "^", Json.str "root"] := by
  intro a b op m
  rcases op with q | s
  · simp +decide [perform_calculation]
  · by_cases h1 : s = "+"
    · subst h1; simp +decide [perform_calculation]
    · by_cases h2 : s = "-"
      · subst h2; simp +decide [perform_calculation]
      · by_cases h3 : s = "*"
        · subst h3; simp +decide [perform_calculation]
        · by_cases h4 : s = "/"
          · subst h4
            by_cases hb : b = 0 <;> simp +decide [perform_calculation, hb]
          · by_cases h5 : s = "^"
            · subst h5
              rcases hp : pypow a b with q | ⟨p, e⟩ | ⟨p, e⟩ | _ <;>
                simp +decide [perform_calculation, powToCalc, hp]
            · by_cases h6 : s = "root"
              · subst h6
                by_cases hb : b = 0
                · simp +decide [perform_calculation, hb]
                · by_cases hbn : b < 0
                  · simp +decide [perform_calculation, hb, hbn]
                  · rcases hp : pypow a (1 / b) with q | ⟨p, e⟩ | ⟨p, e⟩ | _ <;>
                      rw [one_div] at hp <;>
                      simp +decide [perform_calculation, powToCalc, hb, hbn, hp]
              · simp +decide [perform_calculation, h1, h2, h3, h4, h5, h6]

/-- C4 counterexample.  The claim asserts the returned totalRepayment
equals the returned monthlyPayment times the number of payments exactly.
For principal 100, annual rate 1200 (monthly rate 1), term 1 year, the
returned fields are 100.02 and 1200.29, and 100.02 × 12 = 1200.24 ≠
1200.29: the two fields are rounded independently from the unrounded
payment, so the product identity fails. -/
theorem C4_total_counterexample :
    calculate_loan 100 1200 1 = LoanOut.ok (10002/100) (120029/100)
    ∧ (10002 : ℚ)/100 * 12 ≠ (120029 : ℚ)/100 := by
  constructor
  · norm_num [calculate_loan, amortizeFromPow, pypow, round2, roundHalfEven]
  · norm_num

/-- C4 amended.  For every valid loan input with principal ≥ 0, positive
rate and positive term whose number of monthly payments is an integer, the
returned monthlyPayment is round2 of the unrounded payment m given by the
amortization formula and the returned totalRepayment is round2 of m × n
computed from the same unrounded m — the two fields are rounded
independently, so totalRepayment = monthlyPayment × n need not hold for
the returned (rounded) fields. -/
theorem C4_loan_rounding_amended :
    ∀ P r y : ℚ, 0 ≤ P → 0 < r → 0 < y → (y * 12).den = 1 →
      calculate_loan P r y =
        LoanOut.ok
          (round2 (P * ((r / 100 / 12 * (1 + r / 100 / 12) ^ (y * 12).num) /
            ((1 + r / 100 / 12) ^ (y * 12).num - 1))))
          (round2 (P * ((r / 100 / 12 * (1 + r / 100 / 12) ^ (y * 12).num) /
            ((1 + r / 100 / 12) ^ (y * 12).num - 1)) * (y * 12))) := by
  intro P r y hP hr hy hden
  have hi : 0 < r / 100 / 12 := by positivity
  have hb1 : (1 : ℚ) < 1 + r / 100 / 12 := by linarith
  have hnum : 0 < (y * 12).num := Rat.num_pos.mpr (by positivity)
  have hpw : (1 : ℚ) < (1 + r / 100 / 12) ^ (y * 12).num := one_lt_zpow₀ hb1 hnum
  have hne : (1 + r / 100 / 12) ^ (y * 12).num - 1 ≠ 0 :=
    sub_ne_zero.mpr (ne_of_gt hpw)
  have hguard : ¬(P < 0 ∨ r < 0 ∨ y ≤ 0) := by
    push_neg
    exact ⟨hP, hr.le, hy⟩
  have hizero : r / 100 / 12 ≠ 0 := ne_of_gt hi
  have hpy : pypow (1 + r / 100 / 12) (y * 12) =
      PowOut.val ((1 + r / 100 / 12) ^ (y * 12).num) := by
    unfold pypow
    rw [if_neg, if_pos hden]
    rintro ⟨h0, _⟩
    linarith
  simp only [calculate_loan, if_neg hguard, if_neg hizero, hpy, amortizeFromPow,
    if_neg hne]

/-- C4 witness: the amended statement instantiated at principal 100, rate
1200, term 1. -/
theorem C4_loan_rounding_amended_witness :
    calculate_loan 100 1200 1 =
      LoanOut.ok
        (round2 (100 * ((1200 / 100 / 12 * (1 + 1200 / 100 / 12) ^ (((1:ℚ) * 12)).num) /
          ((1 + 1200 / 100 / 12) ^ (((1:ℚ) * 12)).num - 1))))
        (round2 (100 * ((1200 / 100 / 12 * (1 + 1200 / 100 / 12) ^ (((1:ℚ) * 12)).num) /
          ((1 + 1200 / 100 / 12) ^ (((1:ℚ) * 12)).num - 1)) * ((1:ℚ) * 12))) :=
  C4_loan_rounding_amended 100 1200 1 (by norm_num) (by norm_num) (by norm_num)
    (by norm_num)

/-- C6.  The loan calculator fails with the invalid-input error exactly
when principal < 0, annual rate < 0, or term ≤ 0; in particular
`calculate_loan (-100) 5 1` fails with that error, and no payment is
computed on such inputs. -/
theorem C6_loan_validation :
    (∀ P r y : ℚ,
      calculate_loan P r y =
          LoanOut.err "Error: Loan amount, interest rate, and term must be positive numbers." ↔
        P < 0 ∨ r < 0 ∨ y ≤ 0)
    ∧ calculate_loan (-100) 5 1 =
        LoanOut.err "Error: Loan amount, interest rate, and term must be positive numbers." := by
  constructor
  · intro P r y
    constructor
    · intro h
      by_contra hc
      simp only [calculate_loan] at h
      split at h
      · rename_i hcond
        exact hc hcond
      · split at h
        · simp at h
        · simp only [amortizeFromPow] at h
          split at h
          · split at h
            · simp only [LoanOut.err.injEq] at h
              exact absurd h (by decide)
            · simp at h
          · simp at h
    · intro hc
      simp [calculate_loan, hc]
  · norm_num [calculate_loan]

/-- C7.  With annual rate 0 the monthly payment is the principal divided by
the number of monthly payments (term × 12), both returned fields being
round2 of that simple division; in particular `calculate_loan 1200 0 1`
returns monthlyPayment 100 and totalRepayment 1200. -/
theorem C7_zero_rate :
    (∀ P y : ℚ, 0 ≤ P → 0 < y →
      calculate_loan P 0 y =
        LoanOut.ok (round2 (P / (y * 12))) (round2 (P / (y * 12) * (y * 12))))
    ∧ calculate_loan 1200 0 1 = LoanOut.ok 100 1200 := by
  constructor
  · intro P y hP hy
    have hguard : ¬(P < 0 ∨ (0 : ℚ) < 0 ∨ y ≤ 0) := by
      push_neg
      exact ⟨hP, le_refl 0, hy⟩
    simp only [calculate_loan, if_neg hguard]
    norm_num
  · norm_num [calculate_loan, round2, roundHalfEven]

/-- C7 witness: the zero-rate formula instantiated at principal 1200,
term 1 year. -/
theorem C7_zero_rate_witness :
    calculate_loan 1200 0 1 =
      LoanOut.ok (round2 (1200 / (1 * 12))) (round2 (1200 / (1 * 12) * (1 * 12))) :=
  C7_zero_rate.1 1200 1 (by norm_num) (by norm_num)

/-- C9.  The result of `perform_calculation` is independent of its `mode`
argument, and a basic-mode and a currency-mode request carrying identical
`num1`, `num2` and `operator` fields receive identical responses. -/
theorem C9_mode_independent :
    (∀ (a b : ℚ) (op : Json) (m1 m2 : Option Json),
      perform_calculation a b op m1 = perform_calculation a b op m2)
    ∧ ∀ (n1 n2 op : Json),
        calculate (bcReq (.str "basic") n1 n2 op) =
          calculate (bcReq (.str "currency") n1 n2 op) := by
  constructor
  · intro a b op m1 m2
    rfl
  · intro n1 n2 op
    rfl

/-- C5 counterexample.  The claim asserts a non-numeric `xmin` in graph
mode fails with an InvalidNumericInput error rather than an unhandled
exception.  A graph request with expression `"x"` and the string `"0"` as
`xmin` reaches `np.linspace` unvalidated (the call sits before and outside
the `try` block) and raises an unhandled exception (HTTP 500), not a 400
error response. -/
theorem C5_graph_bounds_counterexample :
    calculate (graphReq (some (.str "x")) (some (.str "0")) none) =
      Resp.crash "TypeError: unsupported operand type in np.linspace" := by
  simp +decide [calculate, graphReq, emptyReq, jsonFalsy]

/-- C5 amended.  For the loan and basic/currency modes the claim holds: a
missing required field fails with the mode's missing-arguments error
regardless of the other fields (so before any numeric coercion), and a
value rejected by `float` in a numeric field fails with the mode's
invalid-input error.  In graph mode a missing (or falsy) expression fails
with the missing-expression error, but `xmin`/`xmax` are never validated:
a string value in either bound propagates into `np.linspace` and raises an
unhandled exception instead of an InvalidNumericInput error. -/
theorem C5_validation_amended :
    (∀ req : Req, req.mode = some (Json.str "loan") →
      (req.loan_amount = none ∨ req.annual_interest_rate = none ∨ req.loan_term_years = none) →
      calculate req = Resp.json 400 (Body.error "Missing loan calculation arguments."))
    ∧ (∀ la air lty : Json,
        (pyFloat la = none ∨ pyFloat air = none ∨ pyFloat lty = none) →
        calculate (loanReq la air lty) =
          Resp.json 400 (Body.error "Invalid input: Loan parameters must be numbers."))
    ∧ (∀ req : Req,
        (req.mode = some (Json.str "basic") ∨ req.mode = some (Json.str "currency")) →
        (req.num1 = none ∨ req.num2 = none ∨ req.operator = none) →
        calculate req =
          Resp.json 400 (Body.error "Missing basic/currency arguments (num1, num2, operator)"))
    ∧ (∀ md n1 n2 op : Json, (md = Json.str "basic" ∨ md = Json.str "currency") →
        (pyFloat n1 = none ∨ pyFloat n2 = none) →
        calculate (bcReq md n1 n2 op) =
          Resp.json 400 (Body.error "Invalid input: num1 and num2 must be numbers"))
    ∧ (∀ req : Req, req.mode = some (Json.str "graph") →
        (req.expression = none ∨ ∃ e, req.expression = some e ∧ jsonFalsy e) →
        calculate req = Resp.json 400 (Body.error "Missing expression for graphing."))
    ∧ (∀ (e : Json) (xm xM : Option Json), ¬ jsonFalsy e →
        ((∃ s, xm = some (Json.str s)) ∨ (∃ s, xM = some (Json.str s))) →
        calculate (graphReq (some e) xm xM) =
          Resp.crash "TypeError: unsupported operand type in np.linspace") := by
  refine ⟨?_, ?_, ?_, ?_, ?_, ?_⟩
  · intro req hm hmiss
    obtain ⟨mo, n1, n2, op, la, air, lty, ex, xm, xM⟩ := req
    rcases hmiss with h | h | h <;>
      rcases la with _ | la <;> rcases air with _ | air <;> rcases lty with _ | lty <;>
        simp_all +decide [calculate]
  · intro la air lty hmiss
    rcases h1 : pyFloat la with _ | a <;> rcases h2 : pyFloat air with _ | r <;>
      rcases h3 : pyFloat lty with _ | y <;>
      simp_all +decide [calculate, loanReq, emptyReq]
  · intro req hm hmiss
    obtain ⟨mo, n1, n2, op, la, air, lty, ex, xm, xM⟩ := req
    rcases hm with hm | hm <;>
      rcases hmiss with h | h | h <;>
        rcases n1 with _ | n1 <;> rcases n2 with _ | n2 <;> rcases op with _ | op <;>
          simp_all +decide [calculate]
  · intro md n1 n2 op hmd hmiss
    rcases hmd with hm | hm <;> subst hm <;>
      rcases h1 : pyFloat n1 with _ | a <;> rcases h2 : pyFloat n2 with _ | b <;>
        simp_all +decide [calculate, bcReq, emptyReq]
  · intro req hm hmiss
    obtain ⟨mo, n1, n2, op, la, air, lty, ex, xm, xM⟩ := req
    rcases hmiss with h | ⟨e, he, hf⟩ <;> simp_all +decide [calculate]
  · intro e xm xM he hstr
    rcases hstr with ⟨s, hs⟩ | ⟨s, hs⟩ <;> subst hs
    · simp +decide [calculate, graphReq, emptyReq, he]
    · rcases xm with _ | j
      · simp +decide [calculate, graphReq, emptyReq, he]
      · rcases j with q | t <;> simp +decide [calculate, graphReq, emptyReq, he]

/-- C5 witness: each clause of the amended statement at a concrete
request. -/
theorem C5_validation_amended_witness :
    calculate { emptyReq with mode := some (Json.str "loan") } =
      Resp.json 400 (Body.error "Missing loan calculation arguments.")
    ∧ calculate (loanReq (Json.str "abc") (Json.num 5) (Json.num 1)) =
      Resp.json 400 (Body.error "Invalid input: Loan parameters must be numbers.")
    ∧ calculate { emptyReq with mode := some (Json.str "basic") } =
      Resp.json 400 (Body.error "Missing basic/currency arguments (num1, num2, operator)")
    ∧ calculate (bcReq (Json.str "basic") (Json.str "abc") (Json.num 1) (Json.str "+")) =
      Resp.json 400 (Body.error "Invalid input: num1 and num2 must be numbers")
    ∧ calculate (graphReq none none none) =
      Resp.json 400 (Body.error "Missing expression for graphing.")
    ∧ calculate (graphReq (some (Json.str "x")) none (some (Json.str "abc"))) =
      Resp.crash "TypeError: unsupported operand type in np.linspace" :=
  ⟨C5_validation_amended.1 _ rfl (Or.inl rfl),
   C5_validation_amended.2.1 _ _ _ (Or.inl (by decide)),
   C5_validation_amended.2.2.1 _ (Or.inl rfl) (Or.inl rfl),
   C5_validation_amended.2.2.2.1 _ _ _ _ (Or.inl rfl) (Or.inl (by decide)),
   C5_validation_amended.2.2.2.2.1 _ rfl (Or.inl rfl),
   C5_validation_amended.2.2.2.2.2 _ _ _ (by decide) (Or.inr ⟨"abc", rfl⟩)⟩

/-- C8.  The sampler generates `pointCount` evenly spaced x values over the
closed interval: the grid has the requested length, starts at xMin, ends at
xMax, with constant spacing (xMax - xMin)/(n-1); every caret in the
expression is rewritten to exponentiation before evaluation (no caret
survives the rewrite, and `"x^2"` evaluates to x squared at every point);
sampling `"x^2"` over `[-2, 2]` with 5 points yields the y values
`[4, 1, 0, 1, 4]`; and a graph request without bounds is sampled with the
defaults xMin = -10, xMax = 10 (and 400 points, fixed inside
`graphEval`). -/
theorem C8_sampler :
    (∀ (a b : ℚ) (n : ℕ), 2 ≤ n →
      (linspace a b n).length = n
      ∧ (linspace a b n).getD 0 0 = a
      ∧ (linspace a b n).getD (n - 1) 0 = b
      ∧ ∀ i : ℕ, i < n →
          (linspace a b n).getD i 0 = a + (i : ℚ) * ((b - a) / ((n : ℚ) - 1)))
    ∧ (∀ cs : List Char, '^' ∉ caretRewrite cs)
    ∧ (∀ x : ℚ, samplePoint "x^2" x = EvalOut.val (x ^ 2))
    ∧ sampleExpr "x^2" (-2) 2 5 = ([-2, -1, 0, 1, 2], EvalsOut.ok [4, 1, 0, 1, 4])
    ∧ (∀ e : Json, ¬ jsonFalsy e →
        calculate (graphReq (some e) none none) = graphEval e (-10) 10) := by
  refine ⟨?_, ?_, ?_, ?_, ?_⟩
  · intro a b n hn
    have hn0 : n ≠ 0 := by omega
    have hn1 : n ≠ 1 := by omega
    have hkey : ∀ i : ℕ, i < n →
        (linspace a b n).getD i 0 = a + (i : ℚ) * ((b - a) / ((n : ℚ) - 1)) := by
      intro i hi
      unfold linspace
      rw [if_neg hn0, if_neg hn1]
      rw [List.getD_eq_getElem?_getD, List.getElem?_map, List.getElem?_range hi]
      rfl
    have hlen : (linspace a b n).length = n := by
      unfold linspace
      rw [if_neg hn0, if_neg hn1]
      simp
    have hcast : ((n : ℚ) - 1) ≠ 0 := by
      have h2 : (2 : ℚ) ≤ (n : ℚ) := by exact_mod_cast hn
      linarith
    refine ⟨hlen, ?_, ?_, hkey⟩
    · rw [hkey 0 (by omega)]
      simp
    · rw [hkey (n - 1) (by omega)]
      have hc : ((n - 1 : ℕ) : ℚ) = (n : ℚ) - 1 := by
        have h1 : 1 ≤ n := by omega
        push_cast [h1]
        ring
      rw [hc]
      field_simp
  · intro cs
    induction cs with
    | nil => simp [caretRewrite]
    | cons c t ih =>
      by_cases hc : c = '^'
      · subst hc
        simp +decide [caretRewrite, ih]
      · simp [caretRewrite, hc, ih, Ne.symm hc]
  · intro x
    norm_num +decide [samplePoint, pyReplaceCaret, caretRewrite, pyEval, tokenize, parseAddSub,
      parseAddSubRest, parseMulDiv, parseMulDivRest, parseUnary, parsePow, parseAtom, evalP,
      powOut, pypow, digitsVal, char_two_code]
    norm_cast
  · norm_num +decide [sampleExpr, linspace, List.range_succ, collectYs, samplePoint,
      pyReplaceCaret, caretRewrite, pyEval, tokenize, parseAddSub, parseAddSubRest, parseMulDiv,
      parseMulDivRest, parseUnary, parsePow, parseAtom, evalP, powOut, pypow, digitsVal,
      char_two_code]
  · intro e he
    simp +decide [calculate, graphReq, emptyReq, he]

/-- C8 witness: the grid length at 5 points over [-2, 2], the caret-
rewritten square evaluated at x = 3, and the defaulted dispatch of a graph
request for `"x^2"`. -/
theorem C8_sampler_witness :
    (linspace (-2) 2 5).length = 5
    ∧ samplePoint "x^2" 3 = EvalOut.val (3 ^ 2)
    ∧ calculate (graphReq (some (Json.str "x^2")) none none) =
        graphEval (Json.str "x^2") (-10) 10 :=
  ⟨(C8_sampler.1 (-2) 2 5 (by norm_num)).1,
   C8_sampler.2.2.1 3,
   C8_sampler.2.2.2.2 (Json.str "x^2") (by decide)⟩

/-- C10 counterexample.  The claim asserts a request is answered 200 if and
only if the evaluator succeeded.  For `num1 = -8`, `num2 = 0.5`, operator
`^`, `perform_calculation` succeeds — Python returns the complex value
`(-8) ** 0.5` — but its JSON serialization raises an unhandled `TypeError`,
so the request is answered with a 500 crash, not 200. -/
theorem C10_complex_crash_counterexample :
    calculate (bcReq (.str "basic") (.num (-8)) (.num (1/2)) (.str "^")) =
      Resp.crash "TypeError: Object of type complex is not JSON serializable"
    ∧ perform_calculation (-8) (1/2) (.str "^") (some (.str "basic")) =
      CalcOut.num (PyNum.cplx (-8) (1/2)) := by
  constructor <;>
    norm_num +decide [calculate, bcReq, emptyReq, pyFloat, perform_calculation, powToCalc,
      pypow, dispatchCalc, jsonifyResult]

/-- C10 amended.  Every error value returned by `perform_calculation` or
`calculate_loan` is a string beginning with "Error", and the dispatcher's
prefix discrimination is sound for real-valued results: a coercible
basic/currency request is answered 400 with message m exactly when the
evaluator returned the error string m, 200 with a result value exactly
when the evaluator returned that value and it is not complex, and crashes
on JSON serialization exactly when the value is complex (negative base to
a fractional power); a coercible loan request is answered 400 with m
exactly when `calculate_loan` returned the error m and 200 with the
payment pair exactly when it returned that pair. -/
theorem C10_error_discrimination_amended :
    (∀ (a b : ℚ) (op : Json) (m : Option Json) (msg : String),
      perform_calculation a b op m = CalcOut.err msg → pyStartsWith msg "Error" = true)
    ∧ (∀ (P r y : ℚ) (msg : String),
      calculate_loan P r y = LoanOut.err msg → pyStartsWith msg "Error" = true)
    ∧ (∀ (md n1 n2 op : Json) (a b : ℚ),
        (md = Json.str "basic" ∨ md = Json.str "currency") →
        pyFloat n1 = some a → pyFloat n2 = some b →
        (∀ msg, calculate (bcReq md n1 n2 op) = Resp.json 400 (Body.error msg) ↔
            perform_calculation a b op (some md) = CalcOut.err msg)
        ∧ (∀ v, calculate (bcReq md n1 n2 op) = Resp.json 200 (Body.result v) ↔
            (perform_calculation a b op (some md) = CalcOut.num v ∧
              ∀ p q, v ≠ PyNum.cplx p q))
        ∧ (calculate (bcReq md n1 n2 op) =
              Resp.crash "TypeError: Object of type complex is not JSON serializable" ↔
            ∃ p q, perform_calculation a b op (some md) = CalcOut.num (PyNum.cplx p q)))
    ∧ (∀ (la air lty : Json) (a r y : ℚ),
        pyFloat la = some a → pyFloat air = some r → pyFloat lty = some y →
        (∀ msg, calculate (loanReq la air lty) = Resp.json 400 (Body.error msg) ↔
            calculate_loan a r y = LoanOut.err msg)
        ∧ (∀ mp tr, calculate (loanReq la air lty) = Resp.json 200 (Body.loan mp tr) ↔
            calculate_loan a r y = LoanOut.ok mp tr)) := by
  refine ⟨?_, ?_, ?_, ?_⟩
  · intro a b op m msg h
    simp only [perform_calculation, powToCalc] at h
    repeat' split at h
    all_goals simp at h
    all_goals subst h
    all_goals decide
  · intro P r y msg h
    simp only [calculate_loan, amortizeFromPow] at h
    repeat' split at h
    all_goals simp at h
    all_goals subst h
    all_goals decide
  · intro md n1 n2 op a b hmd h1 h2
    have hred : calculate (bcReq md n1 n2 op) =
        dispatchCalc (perform_calculation a b op (some md)) := by
      rcases hmd with hm | hm <;> subst hm <;>
        simp +decide [calculate, bcReq, emptyReq, h1, h2]
    rw [hred]
    rcases hp : perform_calculation a b op (some md) with v | m
    · rcases v with q | ⟨p, e⟩ | ⟨p, e⟩
      · refine ⟨?_, ?_, ?_⟩
        · intro msg
          simp +decide [dispatchCalc, jsonifyResult]
        · intro v
          simp only [dispatchCalc, jsonifyResult]
          constructor
          · intro hv
            simp only [Resp.json.injEq, Body.result.injEq, true_and] at hv
            subst hv
            exact ⟨rfl, by intro p q; simp⟩
          · rintro ⟨hv, -⟩
            injection hv with hv
            subst hv
            rfl
        · simp +decide [dispatchCalc, jsonifyResult]
      · refine ⟨?_, ?_, ?_⟩
        · intro msg
          simp +decide [dispatchCalc, jsonifyResult]
        · intro v
          simp only [dispatchCalc, jsonifyResult]
          constructor
          · intro hv
            simp only [Resp.json.injEq, Body.result.injEq, true_and] at hv
            subst hv
            exact ⟨rfl, by intro p q; simp⟩
          · rintro ⟨hv, -⟩
            injection hv with hv
            subst hv
            rfl
        · simp +decide [dispatchCalc, jsonifyResult]
      · refine ⟨?_, ?_, ?_⟩
        · intro msg
          simp +decide [dispatchCalc, jsonifyResult]
        · intro v
          simp only [dispatchCalc, jsonifyResult]
          constructor
          · intro hv
            exact absurd hv (by simp)
          · rintro ⟨hv, hnc⟩
            injection hv with hv
            exact absurd hv.symm (hnc p e)
        · simp only [dispatchCalc, jsonifyResult]
          constructor
          · intro _
            exact ⟨p, e, rfl⟩
          · intro _
            trivial
    · refine ⟨?_, ?_, ?_⟩
      · intro msg
        simp +decide [dispatchCalc]
      · intro v
        simp +decide [dispatchCalc]
      · simp +decide [dispatchCalc]
  · intro la air lty a r y h1 h2 h3
    have hred : calculate (loanReq la air lty) = dispatchLoan (calculate_loan a r y) := by
      simp +decide [calculate, loanReq, emptyReq, h1, h2, h3]
    rw [hred]
    rcases hl : calculate_loan a r y with ⟨mp, tr⟩ | m | _
    · constructor
      · intro msg
        simp +decide [dispatchLoan]
      · intro mp2 tr2
        simp +decide [dispatchLoan]
    · constructor
      · intro msg
        simp +decide [dispatchLoan]
      · intro mp2 tr2
        simp +decide [dispatchLoan]
    · constructor
      · intro msg
        simp +decide [dispatchLoan]
      · intro mp2 tr2
        simp +decide [dispatchLoan]

/-- C10 witness: the error-prefix facts at the division-by-zero and
invalid-loan messages, and the dispatch equivalences at concrete
requests. -/
theorem C10_error_discrimination_amended_witness :
    pyStartsWith "Error: Division by zero is not allowed." "Error" = true
    ∧ pyStartsWith "Error: Loan amount, interest rate, and term must be positive numbers."
        "Error" = true
    ∧ (calculate (bcReq (Json.str "basic") (Json.num 1) (Json.num 0) (Json.str "/")) =
          Resp.json 400 (Body.error "Error: Division by zero is not allowed.") ↔
        perform_calculation 1 0 (Json.str "/") (some (Json.str "basic")) =
          CalcOut.err "Error: Division by zero is not allowed.")
    ∧ (calculate (loanReq (Json.num (-100)) (Json.num 5) (Json.num 1)) =
          Resp.json 400
            (Body.error "Error: Loan amount, interest rate, and term must be positive numbers.") ↔
        calculate_loan (-100) 5 1 =
          LoanOut.err "Error: Loan amount, interest rate, and term must be positive numbers.") :=
  ⟨C10_error_discrimination_amended.1 1 0 (Json.str "/") none
      "Error: Division by zero is not allowed." (by norm_num +decide [perform_calculation]),
   C10_error_discrimination_amended.2.1 (-100) 5 1
      "Error: Loan amount, interest rate, and term must be positive numbers."
      (by norm_num [calculate_loan]),
   (C10_error_discrimination_amended.2.2.1 (Json.str "basic") (Json.num 1) (Json.num 0)
      (Json.str "/") 1 0 (Or.inl rfl) rfl rfl).1 "Error: Division by zero is not allowed.",
   (C10_error_discrimination_amended.2.2.2 (Json.num (-100)) (Json.num 5) (Json.num 1)
      (-100) 5 1 rfl rfl rfl).1
      "Error: Loan amount, interest rate, and term must be positive numbers."⟩
